import Mathlib

/-!
# Verification of the query-time retrieval-and-grounding pipeline

Shallow embedding of the RAG query pipeline of this repository
(`src/services/context_score_tracker.py`, `src/services/section_matcher.py`,
`src/services/query_classifier.py`, `src/services/llm_query_classifier.py`,
`src/services/embedding_service.py`, `src/services/vector_store.py`,
`src/services/rag_pipeline.py`), together with theorems settling the spec
claims about it.

Modelling conventions:
* Python floats are modelled as exact rationals (`ℚ`); the claims are about
  the arithmetic formulas and thresholds, not about binary rounding.
* Python dict `.get(key, default)` access is modelled with `Option` fields
  and `Option.getD`.
* External collaborators (the Qdrant index, the Gemini generative backend)
  are modelled by passing their outcome in as an argument: the index outcome
  is an `Except String (List Hit)` (error or hit list) and the generative
  backend outcome is the raw response text together with the result of
  JSON-parsing it (`Option GenJson`, `none` when parsing fails).
* Python's stable `list.sort(key=..., reverse=True)` is modelled by a stable
  descending insertion sort (`sortByScoreDesc`), extensionally equal to any
  stable descending sort.
* `re.search(r"\b<kw>\b", s)` is modelled by `wholeWordMatch` with the ASCII
  word-character class; Python `kw in s` substring tests by `substrB`.
-/

namespace RAG

/-- clamp a rational to `[0, 1]` (Python `max(0.0, min(1.0, x))`). -/
def clamp01 (x : ℚ) : ℚ := max 0 (min 1 x)

/-! ## ContextScoreTracker (`src/services/context_score_tracker.py`) -/

namespace ContextScoreTracker

/-- `ContextScoreTracker.HIGH_CONFIDENCE_THRESHOLD`. -/
def HIGH_CONFIDENCE_THRESHOLD : ℚ := 7/10

/-- `ContextScoreTracker.MEDIUM_CONFIDENCE_THRESHOLD`. -/
def MEDIUM_CONFIDENCE_THRESHOLD : ℚ := 5/10

/-- `ContextScoreTracker.LOW_CONFIDENCE_THRESHOLD`. -/
def LOW_CONFIDENCE_THRESHOLD : ℚ := 3/10

/-- `ContextScoreTracker._get_confidence_level`. -/
def get_confidence_level (score : ℚ) : String :=
  if score ≥ HIGH_CONFIDENCE_THRESHOLD then "high"
  else if score ≥ MEDIUM_CONFIDENCE_THRESHOLD then "medium"
  else if score ≥ LOW_CONFIDENCE_THRESHOLD then "low"
  else "very_low"

/-- mean of a list of rationals (`statistics.mean`); only used on non-empty
lists, as in the source (guarded by the emptiness check). -/
def listMean (l : List ℚ) : ℚ := l.sum / l.length

/-- `ContextScoreTracker.calculate_context_score`. -/
def calculate_context_score (retrieval_scores : List ℚ)
    (query_coverage : ℚ) (source_diversity : ℕ) : ℚ × String :=
  if retrieval_scores = [] then (0, "very_low")
  else
    let avg_retrieval_score := listMean retrieval_scores
    let coverage_bonus := query_coverage * (2/10)
    let diversity_penalty : ℚ :=
      if source_diversity = 1 then 1/10
      else if source_diversity = 0 then 2/10
      else 0
    let context_score := avg_retrieval_score + coverage_bonus - diversity_penalty
    let context_score := max 0 (min 1 context_score)
    (context_score, get_confidence_level context_score)

/-- `ContextScoreTracker.is_high_confidence`. -/
def is_high_confidence (score : ℚ) : Bool := score ≥ HIGH_CONFIDENCE_THRESHOLD

/-- `ContextScoreTracker.is_low_confidence`. -/
def is_low_confidence (score : ℚ) : Bool := score < LOW_CONFIDENCE_THRESHOLD

/-- `ContextScoreTracker.calculate_source_diversity` (`len(set(sources))`). -/
def calculate_source_diversity (sources : List String) : ℕ :=
  sources.dedup.length

/-- `ContextScoreTracker.generate_low_confidence_warning`. -/
def generate_low_confidence_warning (score : ℚ) : String :=
  if score < 2/10 then
    "⚠️ Very Low Confidence: I couldn't find strong relevant information. Please rephrase your question or provide more context."
  else if score < 4/10 then
    "⚠️ Low Confidence: The information I found may not fully address your question. Could you provide more details?"
  else if score < 6/10 then
    "ℹ️ Moderate Confidence: I found some relevant information, but it might not be comprehensive. Feel free to ask follow-up questions."
  else ""

/-- `ContextScoreTracker.calculate_hallucination_risk`. -/
def calculate_hallucination_risk (context_score : ℚ)
    (retrieval_count : ℕ) (unique_sources : ℕ) : ℚ × String :=
  let base_risk := 1 - context_score
  let source_diversity_bonus := min (3/10) ((unique_sources : ℚ) * (1/10))
  let base_risk := max 0 (base_risk - source_diversity_bonus)
  let base_risk :=
    if retrieval_count < 2 then base_risk + 2/10
    else if retrieval_count < 5 then base_risk + 1/10
    else base_risk
  let risk_score := max 0 (min 1 base_risk)
  let risk_level :=
    if risk_score > 7/10 then "critical"
    else if risk_score > 5/10 then "high"
    else if risk_score > 3/10 then "medium"
    else "low"
  (risk_score, risk_level)

/-- `ContextScoreTracker.should_ask_for_clarification`: true iff at least two
of the three listed conditions hold (`sum(conditions) >= 2`). -/
def should_ask_for_clarification (context_score : ℚ)
    (query_length : ℕ) (retrieval_count : ℕ) : Bool :=
  let conditions : List Bool :=
    [decide (context_score < LOW_CONFIDENCE_THRESHOLD),
     decide (retrieval_count < 3),
     decide (query_length < 60)]
  (conditions.map (fun b => if b then 1 else 0)).sum ≥ 2

/-- `ContextScoreTracker.generate_hallucination_prevention_prompt`. -/
def generate_hallucination_prevention_prompt (context_score : ℚ) : String :=
  if context_score < 2/10 then
    "⚠️ I don't have enough information from the papers to answer this question. Instead of guessing, I need you to provide more context or clarification. What specific aspect would you like me to focus on?"
  else if context_score < 4/10 then
    "ℹ️ I have limited information on this topic in the papers. I'll do my best to answer based on what I found, but please note that this might not be a complete answer. Would you like me to elaborate on any specific part?"
  else ""

end ContextScoreTracker

/-! ## Spec-side formulas for the ContextScoreTracker claims -/

/-- Spec formula: `diversityPenalty = 0.2` if `sourceDiversity == 0`,
`0.1` if `== 1`, else `0`. -/
def specDiversityPenalty (source_diversity : ℕ) : ℚ :=
  if source_diversity = 0 then 2/10
  else if source_diversity = 1 then 1/10
  else 0

/-- Spec formula:
`score = clamp01( mean(retrievalScores) + 0.2·queryCoverage − diversityPenalty )`. -/
def specContextScore (retrieval_scores : List ℚ) (query_coverage : ℚ)
    (source_diversity : ℕ) : ℚ :=
  clamp01 (ContextScoreTracker.listMean retrieval_scores
    + (2/10) * query_coverage - specDiversityPenalty source_diversity)

/-- Spec level thresholds: `≥0.7 → high`, `≥0.5 → medium`, `≥0.3 → low`,
else `very_low`. -/
def specConfidenceLevel (score : ℚ) : String :=
  if score ≥ 7/10 then "high"
  else if score ≥ 5/10 then "medium"
  else if score ≥ 3/10 then "low"
  else "very_low"

/-- Spec formula (claim C4): `lowCountPenalty = 0.2` if `retrievalCount < 2`,
`0.1` if `< 5`, else `0`. -/
def specLowCountPenalty (retrieval_count : ℕ) : ℚ :=
  if retrieval_count < 2 then 2/10
  else if retrieval_count < 5 then 1/10
  else 0

/-- Claimed risk formula (claim C4, as stated):
`risk = clamp01( (1 − contextScore) − min(0.3, uniqueSources·0.1) + lowCountPenalty )`. -/
def claimedHallucinationRisk (context_score : ℚ) (retrieval_count : ℕ)
    (unique_sources : ℕ) : ℚ :=
  clamp01 ((1 - context_score) - min (3/10) ((unique_sources : ℚ) * (1/10))
    + specLowCountPenalty retrieval_count)

/-- Amended risk formula: the source clamps the diversity-adjusted base risk
at `0` *before* adding the low-count penalty:
`risk = clamp01( max(0, (1 − contextScore) − min(0.3, uniqueSources·0.1)) + lowCountPenalty )`. -/
def amendedHallucinationRisk (context_score : ℚ) (retrieval_count : ℕ)
    (unique_sources : ℕ) : ℚ :=
  clamp01 (max 0 ((1 - context_score) - min (3/10) ((unique_sources : ℚ) * (1/10)))
    + specLowCountPenalty retrieval_count)

/-- Spec risk-level thresholds: `>0.7 → critical`, `>0.5 → high`,
`>0.3 → medium`, else `low`. -/
def specRiskLevel (risk : ℚ) : String :=
  if risk > 7/10 then "critical"
  else if risk > 5/10 then "high"
  else if risk > 3/10 then "medium"
  else "low"

/-! ## String matching utilities

Python's `re.search(r"\b<kw>\b", s)` (whole-word search) and `kw in s`
(substring containment), modelled over the character lists of strings.
The word-character class is the ASCII `[A-Za-z0-9_]` (all keyword tables in
the source are ASCII). -/

/-- Python `str.lower()` (ASCII range; every keyword table in the source is
ASCII), defined over the character list so that it evaluates by kernel
reduction. -/
def lowerStr (s : String) : String := ⟨s.data.map Char.toLower⟩

/-- Python's default `str.strip()` whitespace class. -/
def isSpaceChar (c : Char) : Bool :=
  c = ' ' || c = '\t' || c = '\n' || c = '\r' || c = '\x0b' || c = '\x0c'

/-- Python `str.strip()`: drop leading and trailing whitespace. -/
def trimStr (s : String) : String :=
  ⟨((s.data.dropWhile isSpaceChar).reverse.dropWhile isSpaceChar).reverse⟩

/-- ASCII word character, the `\w` class of the keyword regexes. -/
def isWordChar (c : Char) : Bool := c.isAlphanum || c = '_'

/-- Whether an optional character (out-of-bounds = `none`) is a word
character; `\b` treats the outside of the string as a non-word position. -/
def wordAt (c? : Option Char) : Bool :=
  match c? with
  | none => false
  | some c => isWordChar c

/-- `\b` holds between two adjacent positions iff exactly one side is a word
character. -/
def isBoundary (a b : Option Char) : Bool := wordAt a != wordAt b

/-- The keyword `kw` occurs in `s` starting at index `i`, with `\b` satisfied
on both ends (`re.search(r"\b" + re.escape(kw) + r"\b", s)` match at `i`). -/
def matchWholeAt (kw s : List Char) (i : ℕ) : Bool :=
  ((s.drop i).take kw.length == kw)
    && isBoundary (if i = 0 then none else s[i-1]?) kw.head?
    && isBoundary kw.getLast? s[i + kw.length]?

/-- `re.search(r"\b<kw>\b", s)` succeeds somewhere in `s`. -/
def wholeWordMatch (kw s : String) : Bool :=
  (List.range (s.data.length + 1)).any (fun i => matchWholeAt kw.data s.data i)

/-- Python substring containment `kw in s`. -/
def substrB (kw s : String) : Bool :=
  (List.range (s.data.length + 1)).any
    (fun i => (s.data.drop i).take kw.data.length == kw.data)

/-- Index of the first occurrence of `sep` in `l`, if any. -/
def findSubIdx (sep : String) (l : List Char) : Option ℕ :=
  (List.range (l.length + 1)).find?
    (fun i => (l.drop i).take sep.data.length == sep.data)

/-- Python `s.split(sep)[1]`: the text between the first and second
occurrence of `sep` (to the end when `sep` occurs only once). Only used on
lines where `sep` is known to occur. -/
def splitPart1 (sep s : String) : String :=
  match findSubIdx sep s.data with
  | none => ""
  | some i =>
    let rest := s.data.drop (i + sep.data.length)
    match findSubIdx sep rest with
    | some j => ⟨rest.take j⟩
    | none => ⟨rest⟩

/-- Python `max` over a non-empty collection of strings (lexicographic by
code point); keeps the current value unless a strictly greater one appears,
like `max(iterable)`. -/
def maxString : List String → String
  | [] => ""
  | h :: t => t.foldl (fun a b => if a < b then b else a) h

/-! ## QueryClassifier (`src/services/query_classifier.py`) -/

namespace QueryClassifier

/-- `QueryClassifier.PAPER_SECTIONS`, in source (insertion) order. -/
def PAPER_SECTIONS : List (String × List String) :=
  [("abstract", ["abstract", "summary", "overview"]),
   ("introduction", ["introduction", "intro", "background", "related work"]),
   ("methodology", ["methodology", "method", "approach", "framework", "architecture"]),
   ("results", ["results", "result", "findings", "experiments", "experimental", "evaluation"]),
   ("conclusion", ["conclusion", "conclusions", "summary", "future work", "limitations"]),
   ("references", ["references", "citations", "bibliography"]),
   ("discussion", ["discussion", "analysis", "implications"]),
   ("future_work", ["future work", "future research", "future directions"])]

/-- `QueryClassifier.GLOBAL_KEYWORDS`, in source order. -/
def GLOBAL_KEYWORDS : List (String × List String) :=
  [("summary", ["summary", "summarize", "summarization", "summed up", "tl;dr"]),
   ("overview", ["overview", "overview", "big picture", "high level"]),
   ("translate", ["translate", "translation", "convert", "rephrase"]),
   ("rewrite", ["rewrite", "rewriting", "paraphrase", "simplify"]),
   ("bullet", ["bullet", "bullets", "points", "list"]),
   ("compare", ["compare", "comparison", "vs", "versus", "difference"]),
   ("explain", ["explain", "explanation", "clarify", "elaborate"])]

/-- `QueryClassifier.OUT_OF_CONTEXT_KEYWORDS`, in source order. -/
def OUT_OF_CONTEXT_KEYWORDS : List (String × List String) :=
  [("greeting", ["hi", "hello", "hey", "greetings", "howdy"]),
   ("casual", ["how are you", "how's it going", "what's up", "thanks", "thank you"]),
   ("meta", ["what can you do", "help", "what is this", "who are you", "tell me about yourself"])]

/-- The `(section_name, keyword)` pairs collected by
`QueryClassifier._check_section_specific`, in iteration order. -/
def sectionMatches (query_lower : String) : List (String × String) :=
  PAPER_SECTIONS.flatMap (fun p =>
    (p.2.filter (fun kw => wholeWordMatch kw query_lower)).map (fun kw => (p.1, kw)))

/-- Result record of `QueryClassifier._check_section_specific`
(`{"match": ..., "section": ..., "confidence": ...}`). -/
structure SectionCheck where
  matched : Bool
  sectionLabel : Option String
  confidence : ℚ
  deriving DecidableEq

/-- `QueryClassifier._check_section_specific`:
`best_section = max(set([m[0] for m in matches]))` and
`confidence = min(1.0, len(matches) * 0.3)`. -/
def check_section_specific (query_lower : String) : SectionCheck :=
  let ms := sectionMatches query_lower
  if ms = [] then ⟨false, none, 0⟩
  else ⟨true, some (maxString (ms.map (·.1))),
        min 1 ((ms.length : ℚ) * (3/10))⟩

/-- Result record of `QueryClassifier._check_global_query`. -/
structure GlobalCheck where
  matched : Bool
  operation : Option String
  confidence : ℚ
  deriving DecidableEq

/-- The operation names collected by `QueryClassifier._check_global_query`
(one entry per matching keyword), in iteration order. -/
def globalMatches (query_lower : String) : List String :=
  GLOBAL_KEYWORDS.flatMap (fun p =>
    (p.2.filter (fun kw => wholeWordMatch kw query_lower)).map (fun _ => p.1))

/-- `QueryClassifier._check_global_query`: first matched operation,
`confidence = min(1.0, len(set(matches)) * 0.4)`. -/
def check_global_query (query_lower : String) : GlobalCheck :=
  let ms := globalMatches query_lower
  if ms = [] then ⟨false, none, 0⟩
  else ⟨true, ms.head?, min 1 ((ms.dedup.length : ℚ) * (4/10))⟩

/-- Result record of `QueryClassifier._check_out_of_context`. -/
structure OocCheck where
  matched : Bool
  category : Option String
  confidence : ℚ
  deriving DecidableEq

/-- The categories collected by `QueryClassifier._check_out_of_context`
(one entry per matching keyword), in iteration order. -/
def oocMatches (query_lower : String) : List String :=
  OUT_OF_CONTEXT_KEYWORDS.flatMap (fun p =>
    (p.2.filter (fun kw => wholeWordMatch kw query_lower)).map (fun _ => p.1))

/-- `QueryClassifier._check_out_of_context`: `category` ends up being the
category of the last matching keyword in iteration order,
`confidence = min(1.0, len(matches) * 0.3)`. -/
def check_out_of_context (query_lower : String) : OocCheck :=
  let ms := oocMatches query_lower
  if ms = [] then ⟨false, none, 0⟩
  else ⟨true, ms.getLast?, min 1 ((ms.length : ℚ) * (3/10))⟩

/-- Result record of `QueryClassifier.classify`. -/
structure QCResult where
  query_type : String
  category : Option String
  detected_section : Option String
  is_global : Bool
  global_operation : Option String
  confidence : ℚ
  requires_clarification : Bool
  deriving DecidableEq

/-- `QueryClassifier.classify`: out-of-context check first, then global,
then section-specific, else `context_specific` with confidence `0.7`. -/
def classify (query : String) : QCResult :=
  let query_lower := trimStr (lowerStr query)
  let ooc := check_out_of_context query_lower
  if ooc.matched then
    ⟨"out_of_context", ooc.category, none, false, none, ooc.confidence, false⟩
  else
    let glob := check_global_query query_lower
    if glob.matched then
      ⟨"global_query", none, none, true, glob.operation, glob.confidence, false⟩
    else
      let sect := check_section_specific query_lower
      if sect.matched then
        ⟨"section_specific", none, sect.sectionLabel, false, none, sect.confidence, false⟩
      else
        ⟨"context_specific", none, none, false, none, 7/10, false⟩

end QueryClassifier

/-! ## LLMQueryClassifier (`src/services/llm_query_classifier.py`) -/

namespace LLMQueryClassifier

/-- `QueryScope` enum (`global` / `local` / `out_of_context`). -/
inductive QueryScope where
  | globalScope
  | localScope
  | out_of_context
  deriving DecidableEq

/-- The classification dict returned by `LLMQueryClassifier.classify` and
`_fallback_classification`; `is_global` / `is_local` / `is_out_of_context`
are always set to `scope == <variant>` in the source, so they are derived
functions here rather than stored fields. -/
structure LLMClassification where
  scope : QueryScope
  operation : Option String
  reason : String
  confidence : ℚ
  deriving DecidableEq

/-- `is_global` entry of the classification dict. -/
def LLMClassification.is_global (c : LLMClassification) : Bool :=
  c.scope = QueryScope.globalScope

/-- Accumulator of `_parse_llm_response` (its `result` dict). -/
structure ParseAcc where
  scope : QueryScope
  operation : Option String
  reason : String
  confidence : ℚ
  deriving DecidableEq

/-- The fixed operation list checked by `_parse_llm_response`. -/
def OPERATIONS : List String :=
  ["summary", "translate", "rewrite", "compare", "overview", "bullet"]

/-- One iteration of the `for line in lines` loop of `_parse_llm_response`. -/
def parseLine (st : ParseAcc) (line : String) : ParseAcc :=
  if substrB "scope:" line then
    if substrB "global" line then { st with scope := QueryScope.globalScope }
    else if substrB "local" line then { st with scope := QueryScope.localScope }
    else if substrB "out_of_context" line then { st with scope := QueryScope.out_of_context }
    else st
  else if substrB "operation:" line then
    let line_content := trimStr (splitPart1 "operation:" line)
    match OPERATIONS.find? (fun op => substrB op line_content) with
    | some op => { st with operation := some op }
    | none => st
  else if substrB "reason:" line then
    { st with reason := trimStr (splitPart1 "reason:" line) }
  else st

/-- `LLMQueryClassifier._parse_llm_response`: lowercase the text, split on
newlines, fold the line parser over it starting from the LOCAL default. -/
def parse_llm_response (response_text : String) : ParseAcc :=
  ((lowerStr response_text).splitOn "\n").foldl parseLine
    ⟨QueryScope.localScope, none, "", 9/10⟩

/-- Out-of-context keywords of `_fallback_classification` (substring
matched, not whole-word). -/
def fallback_out_of_context_keywords : List String :=
  ["hi", "hello", "hey", "how are you", "thanks", "thank you",
   "who are you", "what can you do", "help me"]

/-- Global-operation keyword groups of `_fallback_classification`, in
source order. -/
def fallback_global_keywords : List (String × List String) :=
  [("summary", ["summary", "summarize", "summarization", "tl;dr"]),
   ("compare", ["compare", "comparison", "vs", "versus", "difference", "different"]),
   ("translate", ["translate", "translation", "convert", "rephrase"]),
   ("rewrite", ["rewrite", "simplify", "paraphrase", "easier"]),
   ("overview", ["overview", "big picture", "high level", "general"]),
   ("bullet", ["bullet", "bullets", "points", "list"])]

/-- `LLMQueryClassifier._fallback_classification`: out-of-context keywords
first (Python `kw in query_lower`, i.e. substring containment), then the
global groups in order (first group with a hit wins), else LOCAL with
confidence `0.7`. -/
def fallback_classification (query : String) : LLMClassification :=
  let query_lower := lowerStr query
  if fallback_out_of_context_keywords.any (fun kw => substrB kw query_lower) then
    ⟨QueryScope.out_of_context, none, "Detected casual/greeting query", 8/10⟩
  else
    match fallback_global_keywords.find?
        (fun p => p.2.any (fun kw => substrB kw query_lower)) with
    | some p =>
      ⟨QueryScope.globalScope, some p.1,
       "Detected " ++ p.1 ++ " operation keyword", 75/100⟩
    | none =>
      ⟨QueryScope.localScope, none,
       "No global operation detected, treating as local query", 7/10⟩

/-- `LLMQueryClassifier.classify`: the generative backend outcome is passed
in as an `Except` (error = any exception raised during the call /
`response.text` access). On success the stripped text is parsed leniently;
on any exception the keyword fallback runs. -/
def classify (backend : Except String String) (query : String) :
    LLMClassification :=
  match backend with
  | Except.ok text =>
    let parsed := parse_llm_response (trimStr text)
    ⟨parsed.scope, parsed.operation, parsed.reason, parsed.confidence⟩
  | Except.error _ => fallback_classification query

end LLMQueryClassifier

/-! ## Retrieval hits (`VectorStore.search_similar` result dicts) -/

/-- The metadata dict of a formatted search hit (the Qdrant payload minus
`text`); each field is `Option`al, mirroring `metadata.get(key, default)`
accesses in the source. -/
structure HitMeta where
  file_name : Option String
  source : Option String
  sectionLabel : Option String
  page : Option Int
  deriving DecidableEq

/-- A formatted search result dict
(`{"text": ..., "metadata": ..., "score": ...}`); `section_boost` is the
extra key added by `SectionMatcher._filter_by_section` (absent on raw
hits). -/
structure Hit where
  text : String
  metadata : HitMeta
  score : ℚ
  section_boost : Option ℚ := none
  deriving DecidableEq

/-! ## VectorStore (`src/services/vector_store.py`) -/

namespace VectorStore

/-- `VectorStore.search_similar`: the Qdrant call outcome is passed in as an
`Except`. The `try/except` around `query_points` catches every exception and
returns the empty list; on success the hits are the formatted results. -/
def search_similar (outcome : Except String (List Hit)) : List Hit :=
  match outcome with
  | Except.error _ => []
  | Except.ok hits => hits

end VectorStore

/-! ## SectionMatcher (`src/services/section_matcher.py`) -/

namespace SectionMatcher

/-- `SectionMatcher.SECTION_KEYWORDS`. -/
def SECTION_KEYWORDS : List (String × List String) :=
  [("abstract", ["abstract", "summary", "overview"]),
   ("introduction", ["introduction", "intro", "background", "related work", "motivation"]),
   ("methodology", ["methodology", "method", "approach", "framework", "architecture", "system", "design"]),
   ("results", ["results", "result", "findings", "experiments", "experimental", "evaluation", "performance"]),
   ("conclusion", ["conclusion", "conclusions", "final", "summary"]),
   ("discussion", ["discussion", "analysis", "implications", "impact"]),
   ("future_work", ["future work", "future research", "future directions", "limitations", "open problems"]),
   ("references", ["references", "citations", "bibliography"])]

/-- The `section_aliases` table of `_filter_by_section`. -/
def section_aliases : List (String × List String) :=
  [("abstract", ["abstract", "summary", "overview"]),
   ("introduction", ["introduction", "intro", "related work", "background"]),
   ("methodology", ["methodology", "method", "approach", "framework", "design", "system"]),
   ("results", ["results", "findings", "experiments", "evaluation", "performance"]),
   ("conclusion", ["conclusion", "conclusions", "summary"]),
   ("discussion", ["discussion", "analysis"]),
   ("future_work", ["future work", "limitations"]),
   ("references", ["references", "citations"])]

/-- Python dict `.get(key, [])` over an association list. -/
def lookupKeywords (tbl : List (String × List String)) (key : String) :
    List String :=
  ((tbl.find? (fun p => p.1 = key)).map (·.2)).getD []

/-- The boosted-score re-ranking of one result inside
`_filter_by_section` (body of the `for result in results` loop). -/
def boostResult (target_lower : String) (section_keywords matched_aliases : List String)
    (result : Hit) : Hit :=
  let detected_section := lowerStr (result.metadata.sectionLabel.getD "")
  let text := lowerStr result.text
  let score_boost : ℚ :=
    if detected_section = target_lower then 25/100
    else if matched_aliases.contains detected_section
        || matched_aliases.any (fun al => substrB al detected_section) then 15/100
    else
      let keyword_count := (section_keywords.filter (fun kw => substrB kw text)).length
      if keyword_count > 0 then min (15/100) ((keyword_count : ℚ) * (3/100)) else 0
  { result with
    score := min 1 (result.score + score_boost)
    section_boost := some score_boost }

/-- Stable insertion of a hit into a list sorted descending by `score`: the
inserted hit precedes every later-input hit of equal score (`foldr` inserts
earlier-input elements into the already-sorted suffix). -/
def insertByScoreDesc (x : Hit) : List Hit → List Hit
  | [] => [x]
  | y :: ys => if x.score ≥ y.score then x :: y :: ys else y :: insertByScoreDesc x ys

/-- Stable descending sort by `score`; models Python's stable
`filtered.sort(key=lambda x: x.get("score", 0.0), reverse=True)` (equal
scores keep their original relative order). -/
def sortByScoreDesc (l : List Hit) : List Hit := l.foldr insertByScoreDesc []

/-- `SectionMatcher._filter_by_section`: boost every result, then sort by
boosted score, descending. -/
def filter_by_section (results : List Hit) (target_section : String) :
    List Hit :=
  let section_keywords := lookupKeywords SECTION_KEYWORDS (lowerStr target_section)
  let target_lower := lowerStr target_section
  let matched_aliases := lookupKeywords section_aliases target_lower
  sortByScoreDesc
    (results.map (boostResult target_lower section_keywords matched_aliases))

/-- `SectionMatcher.retrieve_section`: over-fetched search (outcome passed
in), section re-ranking, truncation to `limit`. -/
def retrieve_section (outcome : Except String (List Hit))
    (section_name : String) (limit : ℕ) : List Hit :=
  let results := VectorStore.search_similar outcome
  (filter_by_section results section_name).take limit

end SectionMatcher

/-! ## EmbeddingService (`src/services/embedding_service.py`) -/

/-- A citation dict, as emitted by the generative backend and as consumed by
`Citation(**c)` (keys `paper_title`, `section`, `page`, `relevance_score`). -/
structure Citation where
  paper_title : String
  sectionName : String
  page : Int
  relevance_score : ℚ
  deriving DecidableEq

/-- The JSON object shape of a generative answer; every field is optional,
mirroring the `.get(key, default)` / `"key" not in` accesses in
`EmbeddingService.generate_answer`. -/
structure GenJson where
  answer : Option String
  citations : Option (List Citation)
  sources_used : Option (List String)
  confidence : Option ℚ
  found_relevant_info : Option Bool
  deriving DecidableEq

namespace EmbeddingService

/-- The fallback `sources_used` value:
`list({chunk.get("metadata", {}).get("file_name", "unknown") for chunk in relevant_chunks})`
— the set of the chunks' `file_name` metadata entries (default `"unknown"`),
modelled as the duplicate-free list of those names. -/
def fallbackSources (chunks : List Hit) : List String :=
  (chunks.map (fun c => c.metadata.file_name.getD "unknown")).dedup

/-- The `# Ensure sources_used is always set` step of `generate_answer`:
`if "sources_used" not in json_output or not json_output["sources_used"]`. -/
def ensureSources (j : GenJson) (chunks : List Hit) : GenJson :=
  if j.sources_used = none ∨ j.sources_used = some [] then
    { j with sources_used := some (fallbackSources chunks) }
  else j

/-- The `# Add flag for hallucination detection` step of `generate_answer`:
default `found_relevant_info` to `json_output.get("confidence", 0.5) > 0.4`. -/
def ensureFoundRelevantInfo (j : GenJson) : GenJson :=
  if j.found_relevant_info = none then
    { j with found_relevant_info := some (j.confidence.getD (5/10) > 4/10) }
  else j

/-- `EmbeddingService.generate_answer`, from the point where the backend has
replied: `parsed` is the result of `json.loads` on the fence-stripped
response text `text` (`none` when parsing raised), after which the source
fills in a degraded fallback object, ensures `sources_used` is non-falsy and
defaults `found_relevant_info` to `confidence > 0.4`. -/
def generate_answer (parsed : Option GenJson) (text : String)
    (chunks : List Hit) : GenJson :=
  let json_output : GenJson :=
    match parsed with
    | some j => j
    | none =>
      { answer := some text
        citations := some []
        sources_used := some (fallbackSources chunks)
        confidence := some (5/10)
        found_relevant_info := some false }
  ensureFoundRelevantInfo (ensureSources json_output chunks)

/-- The canned responses of `EmbeddingService.handle_out_of_context_query`
(`responses.get(category, responses["greeting"])`). -/
def out_of_context_answer (category : String) : String :=
  if category = "casual" then
    "I appreciate that! I'm here and ready to help you with your research papers. What aspect of the papers would you like to discuss?"
  else if category = "meta" then
    "I'm a Research Paper RAG Assistant. Here's what I can do:\n• Find information in specific sections (abstract, methodology, results, conclusion, etc.)\n• Summarize papers or specific sections\n• Compare content across multiple papers\n• Explain complex concepts from the papers\n• Translate or simplify technical content\n• Extract key findings and citations\n\nJust ask me anything about your uploaded research papers!"
  else
    "Hello! I'm your Research Paper Assistant. I'm here to help you explore and understand the research papers you've uploaded. You can ask me about specific sections, request summaries, or get explanations about concepts. What would you like to know?"

end EmbeddingService

/-! ## RAGPipeline (`src/services/rag_pipeline.py`) -/

/-- `QueryResponse` (`src/models/api_models.py`), minus the wall-clock
`response_time_ms` field. -/
structure QueryResponse where
  answer : String
  citations : List Citation
  sources_used : List String
  confidence : ℚ
  context_score : ℚ
  context_level : String
  query_type : String
  detected_section : Option String
  is_out_of_context : Bool
  clarification_needed : Bool
  clarification_prompt : Option String
  warning_message : Option String
  retrieval_count : ℕ
  deriving DecidableEq

namespace RAGPipeline

/-- Python truthiness of the optional `warning_message` string (`None` and
`""` are falsy). -/
def optStrFalsy (s : Option String) : Bool :=
  match s with
  | none => true
  | some s => s = ""

/-- The clarification prompt literal attached in STEP 5 of
`RAGPipeline.query`. -/
def clarificationPromptText : String :=
  "I found limited information on this topic. Could you provide more details about what you're looking for? For example, which paper or which section?"

/-- The `(context_score, confidence_level)` computed in STEP 4 of
`RAGPipeline.query` from the retrieved results:
scores are extracted from the hits, `query_coverage = min(1.0, n/5.0)`,
`source_diversity` counts distinct `file_name` metadata entries. -/
def pipelineContextScore (results : List Hit) : ℚ × String :=
  let retrieval_scores := results.map (·.score)
  let source_diversity := ContextScoreTracker.calculate_source_diversity
    (results.map (fun r => r.metadata.file_name.getD "unknown"))
  ContextScoreTracker.calculate_context_score retrieval_scores
    (min 1 ((retrieval_scores.length : ℚ) / 5)) source_diversity

/-- STEPs 4–7 of `RAGPipeline.query`: context scoring, the low-confidence /
clarification gate, the empty-retrieval early return, answer grounding,
hallucination-risk warning and final response assembly. `results` is the hit
list produced by STEP 2; `genParsed`/`genText` are the generative backend's
parsed/raw output for the grounding call. -/
def groundAndRespond (query_text : String) (is_global : Bool)
    (detected_section : Option String) (results : List Hit)
    (genParsed : Option GenJson) (genText : String) : QueryResponse :=
  let retrieval_count := results.length
  let source_diversity := ContextScoreTracker.calculate_source_diversity
    (results.map (fun r => r.metadata.file_name.getD "unknown"))
  let scored := pipelineContextScore results
  let context_score := scored.1
  let confidence_level := scored.2
  -- STEP 5: low-confidence handling
  let clarification_needed :=
    ContextScoreTracker.is_low_confidence context_score
      && ContextScoreTracker.should_ask_for_clarification context_score
           query_text.length retrieval_count
  let clarification_prompt : Option String :=
    if clarification_needed then some clarificationPromptText else none
  let warning_message : Option String :=
    if ContextScoreTracker.is_low_confidence context_score then
      some (ContextScoreTracker.generate_low_confidence_warning context_score)
    else none
  let query_type_str := if is_global then "global" else "local"
  if results = [] then
    { answer := clarification_prompt.getD
        "I couldn't find relevant information in the papers. Could you rephrase your question?"
      citations := []
      sources_used := []
      confidence := 0
      context_score := 0
      context_level := "very_low"
      query_type := query_type_str
      detected_section := none
      is_out_of_context := false
      clarification_needed := true
      clarification_prompt := clarification_prompt
      warning_message := some "No relevant information found in papers."
      retrieval_count := 0 }
  else
    -- STEP 6: grounding and hallucination-risk warning
    let json_response := EmbeddingService.generate_answer genParsed genText results
    let risk := ContextScoreTracker.calculate_hallucination_risk
      context_score retrieval_count source_diversity
    let warning_message :=
      if risk.1 > 6/10 then
        let hallucination_warning :=
          ContextScoreTracker.generate_hallucination_prevention_prompt context_score
        if hallucination_warning ≠ "" ∧ optStrFalsy warning_message then
          some hallucination_warning
        else warning_message
      else warning_message
    -- STEP 7: response assembly
    { answer := json_response.answer.getD ""
      citations := json_response.citations.getD []
      sources_used := json_response.sources_used.getD []
      confidence := json_response.confidence.getD 0
      context_score := context_score
      context_level := confidence_level
      query_type := query_type_str
      detected_section := detected_section
      is_out_of_context := false
      clarification_needed := clarification_needed
      clarification_prompt := clarification_prompt
      warning_message := warning_message
      retrieval_count := retrieval_count }

/-- `RAGPipeline.query`: scope branch (STEP 1B), retrieval branch (STEP 2)
and the grounding/assembly steps. External outcomes are passed in:
`llm` is the (already computed) scope classification,
`indexOutcome` the vector index outcome for this query's search call,
`genParsed`/`genText` the generative answer backend outcome.
The post-response stats update (STEP 8) has no effect on the returned
response and is not modelled. -/
def query (llm : LLMQueryClassifier.LLMClassification) (query_text : String)
    (indexOutcome : Except String (List Hit)) (genParsed : Option GenJson)
    (genText : String) (limit : ℕ) : QueryResponse :=
  if llm.scope = LLMQueryClassifier.QueryScope.out_of_context then
    { answer := EmbeddingService.out_of_context_answer "greeting"
      citations := []
      sources_used := []
      confidence := 1
      context_score := 1
      context_level := "high"
      query_type := "out_of_context"
      detected_section := none
      is_out_of_context := true
      clarification_needed := false
      clarification_prompt := none
      warning_message := none
      retrieval_count := 0 }
  else
    let branch : List Hit × Option String :=
      if llm.is_global then (VectorStore.search_similar indexOutcome, none)
      else
        let keyword_classification := QueryClassifier.classify query_text
        match keyword_classification.detected_section with
        | some s => (SectionMatcher.retrieve_section indexOutcome s limit, some s)
        | none => (VectorStore.search_similar indexOutcome, none)
    groundAndRespond query_text llm.is_global branch.2 branch.1 genParsed genText

end RAGPipeline

/-! ## Spec-side definitions for the pipeline claims -/

/-- The `(paper, section, page)` identity of a citation. -/
def citationTriple (c : Citation) : String × String × Int :=
  (c.paper_title, c.sectionName, c.page)

/-- The `(paper, section, page)` identity of a retrieved hit, as presented
to the grounding backend in the context header of `generate_answer`
(`source` default `"unknown"`, `section` default `"unknown"`, `page`
default `1`). -/
def hitTriple (h : Hit) : String × String × Int :=
  (h.metadata.source.getD "unknown", h.metadata.sectionLabel.getD "unknown",
   h.metadata.page.getD 1)

/-- Spec formula (claim C7): the additive section boost of a candidate —
`+0.25` on exact section match, `+0.15` on a known-alias match,
`+min(0.15, 0.03·k)` when the target section's keyword list has `k ≥ 1`
(substring) hits in the chunk text, else `+0`. -/
def specSectionBoost (target_section : String) (h : Hit) : ℚ :=
  let target_lower := lowerStr target_section
  let detected := lowerStr (h.metadata.sectionLabel.getD "")
  let aliases := SectionMatcher.lookupKeywords SectionMatcher.section_aliases target_lower
  let keywords := SectionMatcher.lookupKeywords SectionMatcher.SECTION_KEYWORDS target_lower
  if detected = target_lower then 25/100
  else if aliases.contains detected
      || aliases.any (fun al => substrB al detected) then 15/100
  else
    let k := (keywords.filter (fun kw => substrB kw (lowerStr h.text))).length
    if k ≥ 1 then min (15/100) ((k : ℚ) * (3/100)) else 0

/-- Spec-side re-ranked candidate (claim C7): base score plus boost, clamped
to `[0,1]`, with the boost recorded. -/
def specBoostedHit (target_section : String) (h : Hit) : Hit :=
  { h with
    score := clamp01 (h.score + specSectionBoost target_section h)
    section_boost := some (specSectionBoost target_section h) }

/-- The section labels whose keyword list has at least one whole-word match
in the query (the distinct labels occurring in
`QueryClassifier._check_section_specific`'s `matches`). -/
def QueryClassifier.matchedSectionLabels (query_lower : String) : List String :=
  (QueryClassifier.PAPER_SECTIONS.filter
    (fun p => p.2.any (fun kw => wholeWordMatch kw query_lower))).map (·.1)

/-! # Theorems

Helper lemmas first, then one theorem per claim (with witnesses /
counterexamples as required). -/

/-- `clamp01` is monotone. -/
theorem clamp01_mono {x y : ℚ} (h : x ≤ y) : clamp01 x ≤ clamp01 y :=
  max_le_max le_rfl (min_le_min le_rfl h)

/-- For a nonnegative argument, `min 1` agrees with `clamp01` (the source's
one-sided clamp is the spec's two-sided one on nonnegative scores). -/
theorem min_one_eq_clamp01 {x : ℚ} (h : 0 ≤ x) : min 1 x = clamp01 x := by
  unfold clamp01
  rw [max_eq_right (le_min (by norm_num) h)]

/-- The source's confidence-level banding equals the spec's threshold
table. -/
theorem get_confidence_level_eq_spec (x : ℚ) :
    ContextScoreTracker.get_confidence_level x = specConfidenceLevel x := rfl

/-- The source's diversity penalty (an `if` chain testing `== 1` before
`== 0`) equals the spec's. -/
theorem diversity_penalty_eq_spec (d : ℕ) :
    (if d = 1 then (1 : ℚ)/10 else if d = 0 then 2/10 else 0)
      = specDiversityPenalty d := by
  unfold specDiversityPenalty
  rcases d with _ | _ | d <;> norm_num

/--
C5: `calculateContextScore` returns `(0.0, "very_low")` for the empty
retrieval-score list; for every non-empty list it returns
`score = clamp01(mean(retrievalScores) + 0.2·queryCoverage − diversityPenalty)`
with `diversityPenalty` 0.2 when `sourceDiversity == 0`, 0.1 when `== 1`,
else 0, and level high when `score ≥ 0.7`, medium when `≥ 0.5`, low when
`≥ 0.3`, else very_low.
-/
theorem C5_calculate_context_score_spec :
    (∀ (cov : ℚ) (div : ℕ),
      ContextScoreTracker.calculate_context_score [] cov div = (0, "very_low")) ∧
    (∀ (scores : List ℚ) (cov : ℚ) (div : ℕ), scores ≠ [] →
      ContextScoreTracker.calculate_context_score scores cov div =
        (specContextScore scores cov div,
         specConfidenceLevel (specContextScore scores cov div))) := by
  refine ⟨fun cov div => rfl, fun scores cov div h => ?_⟩
  simp only [ContextScoreTracker.calculate_context_score, if_neg h, specContextScore, clamp01,
    mul_comm cov ((2 : ℚ)/10), diversity_penalty_eq_spec, get_confidence_level_eq_spec]

/-- Witness for C5 at a concrete non-empty input. -/
theorem C5_witness :
    ContextScoreTracker.calculate_context_score [3/5] (1/5) 1 =
      (specContextScore [3/5] (1/5) 1,
       specConfidenceLevel (specContextScore [3/5] (1/5) 1)) :=
  C5_calculate_context_score_spec.2 [3/5] (1/5) 1 (by decide)

/--
C6: for every non-empty `retrievalScores` list, increasing a single element
(at any position, others fixed) never decreases the context score; and
increasing `sourceDiversity` with the other arguments fixed never decreases
it either.
-/
theorem C6_context_score_monotone :
    (∀ (l : List ℚ) (i : ℕ) (a b cov : ℚ) (div : ℕ),
      l ≠ [] → i < l.length → a ≤ b →
      (ContextScoreTracker.calculate_context_score (l.set i a) cov div).1 ≤
        (ContextScoreTracker.calculate_context_score (l.set i b) cov div).1) ∧
    (∀ (l : List ℚ) (cov : ℚ) (d₁ d₂ : ℕ), d₁ ≤ d₂ →
      (ContextScoreTracker.calculate_context_score l cov d₁).1 ≤
        (ContextScoreTracker.calculate_context_score l cov d₂).1) := by
  constructor
  · intro l i a b cov div hl hi hab
    have hlena : (l.set i a).length = l.length := List.length_set l i a
    have hlenb : (l.set i b).length = l.length := List.length_set l i b
    have hlzero : l.length ≠ 0 := fun h0 => hl (List.length_eq_zero.mp h0)
    have hna : l.set i a ≠ [] := fun hcon => hlzero (by rw [← hlena, hcon]; rfl)
    have hnb : l.set i b ≠ [] := fun hcon => hlzero (by rw [← hlenb, hcon]; rfl)
    have hmean : ContextScoreTracker.listMean (l.set i a) ≤
        ContextScoreTracker.listMean (l.set i b) := by
      unfold ContextScoreTracker.listMean
      rw [hlena, hlenb, List.sum_set', List.sum_set', dif_pos hi, dif_pos hi]
      gcongr
    simp only [ContextScoreTracker.calculate_context_score, if_neg hna, if_neg hnb]
    exact max_le_max le_rfl (min_le_min le_rfl
      (sub_le_sub_right (add_le_add_right hmean _) _))
  · intro l cov d₁ d₂ hd
    by_cases hl : l = []
    · subst hl
      simp [ContextScoreTracker.calculate_context_score]
    · have hpen : (if d₂ = 1 then (1 : ℚ)/10 else if d₂ = 0 then 2/10 else 0) ≤
          (if d₁ = 1 then (1 : ℚ)/10 else if d₁ = 0 then 2/10 else 0) := by
        rcases d₁ with _ | _ | d₁ <;> rcases d₂ with _ | _ | d₂ <;>
          first
            | (exfalso; omega)
            | norm_num
      simp only [ContextScoreTracker.calculate_context_score, if_neg hl]
      exact max_le_max le_rfl (min_le_min le_rfl (sub_le_sub_left hpen _))

/-- Witness for C6 at concrete inputs. -/
theorem C6_witness :
    (ContextScoreTracker.calculate_context_score ([1/2, 1/4].set 1 (1/4)) (1/5) 2).1 ≤
      (ContextScoreTracker.calculate_context_score ([1/2, 1/4].set 1 (3/4)) (1/5) 2).1 :=
  C6_context_score_monotone.1 [1/2, 1/4] 1 (1/4) (3/4) (1/5) 2
    (by decide) (by decide) (by norm_num)

/--
C4 counterexample: at `contextScore = 1`, `retrievalCount = 1`,
`uniqueSources = 1` the source returns risk `0.2` (the diversity bonus is
absorbed by an intermediate clamp at 0 before the low-count penalty is
added), while the claimed formula
`clamp01((1 − contextScore) − min(0.3, uniqueSources·0.1) + lowCountPenalty)`
gives `0.1`.
-/
theorem C4_counterexample :
    (ContextScoreTracker.calculate_hallucination_risk 1 1 1).1 = 2/10 ∧
    claimedHallucinationRisk 1 1 1 = 1/10 ∧
    (ContextScoreTracker.calculate_hallucination_risk 1 1 1).1 ≠
      claimedHallucinationRisk 1 1 1 := by
  refine ⟨by norm_num [ContextScoreTracker.calculate_hallucination_risk], ?_, ?_⟩ <;>
    norm_num [ContextScoreTracker.calculate_hallucination_risk,
      claimedHallucinationRisk, specLowCountPenalty, clamp01]

/--
C4 (amended): for all `contextScore ∈ [0,1]`, `retrievalCount ≥ 0`,
`uniqueSources ≥ 0`, the source computes
`risk = clamp01( max(0, (1 − contextScore) − min(0.3, uniqueSources·0.1)) + lowCountPenalty )`
— the diversity-adjusted base risk is clamped at 0 *before* the low-count
penalty (0.2 if `retrievalCount < 2`, 0.1 if `< 5`, else 0) is added — and
the level is critical if `risk > 0.7`, high if `> 0.5`, medium if `> 0.3`,
else low.
-/
theorem C4_hallucination_risk_amended :
    ∀ (cs : ℚ) (count uniq : ℕ), 0 ≤ cs → cs ≤ 1 →
      ContextScoreTracker.calculate_hallucination_risk cs count uniq =
        (amendedHallucinationRisk cs count uniq,
         specRiskLevel (amendedHallucinationRisk cs count uniq)) := by
  intro cs count uniq _ _
  by_cases h1 : count < 2
  · simp only [ContextScoreTracker.calculate_hallucination_risk,
      amendedHallucinationRisk, specLowCountPenalty, specRiskLevel, clamp01,
      if_pos h1]
  · by_cases h2 : count < 5
    · simp only [ContextScoreTracker.calculate_hallucination_risk,
        amendedHallucinationRisk, specLowCountPenalty, specRiskLevel, clamp01,
        if_neg h1, if_pos h2]
    · simp only [ContextScoreTracker.calculate_hallucination_risk,
        amendedHallucinationRisk, specLowCountPenalty, specRiskLevel, clamp01,
        if_neg h1, if_neg h2, add_zero]

/-- Witness for C4 (amended) at a concrete input. -/
theorem C4_witness :
    ContextScoreTracker.calculate_hallucination_risk (1/2) 3 2 =
      (amendedHallucinationRisk (1/2) 3 2,
       specRiskLevel (amendedHallucinationRisk (1/2) 3 2)) :=
  C4_hallucination_risk_amended (1/2) 3 2 (by norm_num) (by norm_num)

/--
C8: for every query and non-empty candidate chunk list, when the generative
backend's output cannot be parsed as structured data (`parsed = none`), the
grounding step returns exactly
`{answer: the (fence-stripped) response text, citations: [], sourcesUsed:
the set of the candidate chunks' source papers, confidence: 0.5,
foundRelevantInfo: false}` instead of raising.
-/
theorem C8_malformed_grounding_fallback :
    ∀ (text : String) (chunks : List Hit), chunks ≠ [] →
      EmbeddingService.generate_answer none text chunks =
        { answer := some text
          citations := some []
          sources_used := some (EmbeddingService.fallbackSources chunks)
          confidence := some (5/10)
          found_relevant_info := some false } := by
  intro text chunks hchunks
  have hfb : EmbeddingService.fallbackSources chunks ≠ [] := by
    unfold EmbeddingService.fallbackSources
    simp [List.dedup_eq_nil, hchunks]
  simp [EmbeddingService.generate_answer, EmbeddingService.ensureSources,
    EmbeddingService.ensureFoundRelevantInfo, hfb]

/-- The fold inside `maxString` returns either its seed or a list element,
is an upper bound of the seed, and an upper bound of the list. -/
theorem maxString_foldl_spec (t : List String) : ∀ a : String,
    (t.foldl (fun x y => if x < y then y else x) a = a ∨
      t.foldl (fun x y => if x < y then y else x) a ∈ t) ∧
    a ≤ t.foldl (fun x y => if x < y then y else x) a ∧
    ∀ x ∈ t, x ≤ t.foldl (fun x y => if x < y then y else x) a := by
  induction t with
  | nil => exact fun a => ⟨Or.inl rfl, le_rfl, by simp⟩
  | cons b t ih =>
    intro a
    have hfab : a ≤ (if a < b then b else a) := by
      split_ifs with h
      · exact le_of_lt h
      · exact le_rfl
    have hfbb : b ≤ (if a < b then b else a) := by
      split_ifs with h
      · exact le_rfl
      · exact le_of_not_lt h
    obtain ⟨hmem, hge, hall⟩ := ih (if a < b then b else a)
    refine ⟨?_, le_trans hfab hge, ?_⟩
    · rcases hmem with h | h
      · rw [List.foldl_cons, h]
        split_ifs
        · exact Or.inr (List.mem_cons_self b t)
        · exact Or.inl rfl
      · exact Or.inr (List.mem_cons_of_mem b h)
    · intro x hx
      rcases List.mem_cons.mp hx with rfl | hx
      · exact le_trans hfbb hge
      · exact hall x hx

/-- `maxString` of a non-empty list (Python `max`) is a member and an upper
bound (the lexicographically greatest element). -/
theorem maxString_spec : ∀ (l : List String), l ≠ [] →
    maxString l ∈ l ∧ ∀ x ∈ l, x ≤ maxString l := by
  intro l hl
  match l with
  | h :: t =>
    obtain ⟨hmem, hge, hall⟩ := maxString_foldl_spec t h
    constructor
    · rcases hmem with he | he
      · rw [maxString, he]
        exact List.mem_cons_self h t
      · exact List.mem_cons_of_mem h he
    · intro x hx
      rcases List.mem_cons.mp hx with rfl | hx
      · exact hge
      · exact hall x hx

/-- The section labels occurring in `_check_section_specific`'s match-pair
list are exactly the labels with at least one whole-word keyword hit. -/
theorem mem_sectionMatches_fst (q s : String) :
    s ∈ (QueryClassifier.sectionMatches q).map (·.1) ↔
      s ∈ QueryClassifier.matchedSectionLabels q := by
  unfold QueryClassifier.sectionMatches QueryClassifier.matchedSectionLabels
  constructor
  · intro h
    obtain ⟨pair, hpair, hfst⟩ := List.mem_map.mp h
    obtain ⟨p, hp, hmem⟩ := List.mem_flatMap.mp hpair
    obtain ⟨kw, hkw, heq⟩ := List.mem_map.mp hmem
    obtain ⟨hkmem, hkpred⟩ := List.mem_filter.mp hkw
    refine List.mem_map.mpr ⟨p, List.mem_filter.mpr ⟨hp, ?_⟩, ?_⟩
    · exact List.any_eq_true.mpr ⟨kw, hkmem, hkpred⟩
    · rw [← hfst, ← heq]
  · intro h
    obtain ⟨p, hp, hfst⟩ := List.mem_map.mp h
    obtain ⟨hpmem, hpany⟩ := List.mem_filter.mp hp
    obtain ⟨kw, hkmem, hkpred⟩ := List.any_eq_true.mp hpany
    exact List.mem_map.mpr ⟨(p.1, kw), List.mem_flatMap.mpr
      ⟨p, hpmem, List.mem_map.mpr ⟨kw, List.mem_filter.mpr ⟨hkmem, hkpred⟩, rfl⟩⟩, hfst⟩

/--
C9: for every query string in which keywords of two or more distinct section
labels match as whole words, `_check_section_specific` reports a match and
its detected section is the lexicographically greatest of the matched
section labels (not the most frequently matched one), deterministically.
-/
theorem C9_section_tiebreak_lexmax :
    ∀ q : String,
      (∃ s₁ s₂, s₁ ∈ QueryClassifier.matchedSectionLabels q ∧
        s₂ ∈ QueryClassifier.matchedSectionLabels q ∧ s₁ ≠ s₂) →
      (QueryClassifier.check_section_specific q).matched = true ∧
      ∃ s, (QueryClassifier.check_section_specific q).sectionLabel = some s ∧
        s ∈ QueryClassifier.matchedSectionLabels q ∧
        ∀ l ∈ QueryClassifier.matchedSectionLabels q, l ≤ s := by
  rintro q ⟨s₁, s₂, h₁, _h₂, _hne⟩
  have hmem₁ : s₁ ∈ (QueryClassifier.sectionMatches q).map Prod.fst :=
    (mem_sectionMatches_fst q s₁).mpr h₁
  have hne_ms : QueryClassifier.sectionMatches q ≠ [] := by
    intro hcon
    rw [hcon] at hmem₁
    simp at hmem₁
  have hne_map : (QueryClassifier.sectionMatches q).map Prod.fst ≠ [] := by
    intro hcon
    rw [hcon] at hmem₁
    simp at hmem₁
  obtain ⟨hmax_mem, hmax_ub⟩ := maxString_spec _ hne_map
  unfold QueryClassifier.check_section_specific
  rw [if_neg hne_ms]
  refine ⟨rfl, maxString ((QueryClassifier.sectionMatches q).map (·.1)), rfl,
    (mem_sectionMatches_fst q _).mp hmax_mem, ?_⟩
  intro l hl
  exact hmax_ub l ((mem_sectionMatches_fst q l).mpr hl)

/-- Witness for C9 on a query matching both `methodology` and `results`. -/
theorem C9_witness :
    (QueryClassifier.check_section_specific "methodology results").matched = true :=
  (C9_section_tiebreak_lexmax "methodology results"
    ⟨"methodology", "results", by decide, by decide, by decide⟩).1

/--
C10 (implicit): the scope classifier's keyword fallback — taken whenever the
generative backend call raises — matches keywords by substring containment,
so every query whose lowercased text contains any out-of-context keyword as
a substring (e.g. `hi` inside `this` or `historical`) is classified
OUT_OF_CONTEXT, even a genuine research question.
-/
theorem C10_fallback_substring_scope :
    (∀ e q : String,
      LLMQueryClassifier.classify (Except.error e) q =
        LLMQueryClassifier.fallback_classification q) ∧
    (∀ q : String,
      (∃ kw ∈ LLMQueryClassifier.fallback_out_of_context_keywords,
        substrB kw (lowerStr q) = true) →
      (LLMQueryClassifier.fallback_classification q).scope =
        LLMQueryClassifier.QueryScope.out_of_context) := by
  refine ⟨fun e q => rfl, ?_⟩
  rintro q ⟨kw, hmem, hsub⟩
  have hany : (LLMQueryClassifier.fallback_out_of_context_keywords.any
      (fun kw => substrB kw (lowerStr q))) = true :=
    List.any_eq_true.mpr ⟨kw, hmem, hsub⟩
  unfold LLMQueryClassifier.fallback_classification
  rw [if_pos hany]

/-- Witness for C10: a genuine research question containing `hi` inside
`this`/`historical` lands in OUT_OF_CONTEXT under the fallback. -/
theorem C10_witness :
    (LLMQueryClassifier.fallback_classification
      "This is historical research").scope =
      LLMQueryClassifier.QueryScope.out_of_context :=
  C10_fallback_substring_scope.2 "This is historical research"
    ⟨"hi", by decide, by decide⟩

/-- The spec-side section boost is nonnegative. -/
theorem specSectionBoost_nonneg (target : String) (h : Hit) :
    0 ≤ specSectionBoost target h := by
  simp only [specSectionBoost]
  split_ifs <;> try norm_num

/-- The per-result re-ranking step of `_filter_by_section` computes exactly
the spec-side boosted candidate (claim C7), for nonnegative base scores. -/
theorem boostResult_eq_spec (target : String) (h : Hit) (hs : 0 ≤ h.score) :
    SectionMatcher.boostResult (lowerStr target)
      (SectionMatcher.lookupKeywords SectionMatcher.SECTION_KEYWORDS (lowerStr target))
      (SectionMatcher.lookupKeywords SectionMatcher.section_aliases (lowerStr target)) h
      = specBoostedHit target h := by
  have hb := specSectionBoost_nonneg target h
  have hrfl : SectionMatcher.boostResult (lowerStr target)
      (SectionMatcher.lookupKeywords SectionMatcher.SECTION_KEYWORDS (lowerStr target))
      (SectionMatcher.lookupKeywords SectionMatcher.section_aliases (lowerStr target)) h =
      { h with score := min 1 (h.score + specSectionBoost target h)
               section_boost := some (specSectionBoost target h) } := rfl
  rw [hrfl, min_one_eq_clamp01 (add_nonneg hs hb)]
  rfl

/--
C7 (amended): `retrieveSection` re-ranks candidates by adding a boost to
each candidate's base score — +0.25 on exact section match, +0.15 on a
known-alias match, +min(0.15, 0.03·k) when the target section's keyword
list has k ≥ 1 hits in the chunk text, else +0 — clamps to [0,1], sorts
descending (stably) by boosted score and truncates to `limit`; and for two
candidates with equal base score `s` with `0 ≤ s < 1`, one an exact section
match and one unrelated with zero keyword hits (boost 0), the exact-match
candidate ends up strictly higher: at `s = 1` the clamp absorbs the boost
and the tie is broken by the stable sort in input order instead (see the
counterexample).
-/
theorem C7_section_boost_rerank :
    (∀ (results : List Hit) (target : String) (lim : ℕ),
      (∀ r ∈ results, 0 ≤ r.score) →
      SectionMatcher.retrieve_section (Except.ok results) target lim =
        (SectionMatcher.sortByScoreDesc
          (results.map (specBoostedHit target))).take lim) ∧
    (∀ (target : String) (h₁ h₂ : Hit) (s : ℚ),
      h₁.score = s → h₂.score = s → 0 ≤ s → s < 1 →
      lowerStr (h₁.metadata.sectionLabel.getD "") = lowerStr target →
      specSectionBoost target h₂ = 0 →
      SectionMatcher.filter_by_section [h₂, h₁] target =
        [specBoostedHit target h₁, specBoostedHit target h₂] ∧
      (specBoostedHit target h₁).score > (specBoostedHit target h₂).score) := by
  have hfilter : ∀ (results : List Hit) (target : String),
      (∀ r ∈ results, 0 ≤ r.score) →
      SectionMatcher.filter_by_section results target =
        SectionMatcher.sortByScoreDesc (results.map (specBoostedHit target)) := by
    intro results target hnn
    simp only [SectionMatcher.filter_by_section]
    rw [List.map_congr_left (fun r hr => boostResult_eq_spec target r (hnn r hr))]
  constructor
  · intro results target lim hnn
    show (SectionMatcher.filter_by_section results target).take lim = _
    rw [hfilter results target hnn]
  · intro target h₁ h₂ s hs₁ hs₂ hs0 hs1 hexact hzero
    have hb₁ : specSectionBoost target h₁ = 25/100 := by
      simp only [specSectionBoost]
      rw [if_pos hexact]
    have hsc₂ : (specBoostedHit target h₂).score = s := by
      simp only [specBoostedHit]
      rw [hzero, hs₂, add_zero]
      simp only [clamp01]
      rw [min_eq_right (le_of_lt hs1), max_eq_right hs0]
    have hsc₁ : (specBoostedHit target h₁).score = min 1 (s + 25/100) := by
      simp only [specBoostedHit]
      rw [hb₁, hs₁, min_one_eq_clamp01 (by linarith)]
    have hgt : (specBoostedHit target h₁).score > (specBoostedHit target h₂).score := by
      rw [hsc₁, hsc₂]
      exact lt_min hs1 (by linarith)
    refine ⟨?_, hgt⟩
    have h2map : SectionMatcher.filter_by_section [h₂, h₁] target =
        SectionMatcher.sortByScoreDesc
          [specBoostedHit target h₂, specBoostedHit target h₁] := by
      have := hfilter [h₂, h₁] target (by
        intro r hr
        rcases List.mem_cons.mp hr with rfl | hr
        · rw [hs₂]; exact hs0
        · rcases List.mem_cons.mp hr with rfl | hr
          · rw [hs₁]; exact hs0
          · simp at hr)
      simpa using this
    rw [h2map]
    simp only [SectionMatcher.sortByScoreDesc, List.foldr_cons, List.foldr_nil,
      SectionMatcher.insertByScoreDesc]
    rw [if_neg (not_le_of_gt hgt)]

/--
C7 counterexample: at base score exactly 1 the `min(1, ·)` clamp absorbs the
+0.25 exact-match boost; with the unrelated candidate first in the input,
the stable sort keeps it first, so the exact-match candidate does not rank
strictly higher.
-/
theorem C7_counterexample :
    SectionMatcher.filter_by_section
      [⟨"zzz", ⟨some "b.pdf", some "b.pdf", some "introduction", some 1⟩, 1, none⟩,
       ⟨"tt", ⟨some "a.pdf", some "a.pdf", some "results", some 1⟩, 1, none⟩]
      "results" =
      [⟨"zzz", ⟨some "b.pdf", some "b.pdf", some "introduction", some 1⟩, 1, some 0⟩,
       ⟨"tt", ⟨some "a.pdf", some "a.pdf", some "results", some 1⟩, 1, some (25/100)⟩] := by
  with_unfolding_all decide

/-- Witness for C7 (amended) at concrete candidates with base score 1/2. -/
theorem C7_witness :
    (specBoostedHit "results"
      ⟨"tt", ⟨some "a.pdf", some "a.pdf", some "results", some 1⟩, 1/2, none⟩).score >
    (specBoostedHit "results"
      ⟨"zzz", ⟨some "b.pdf", some "b.pdf", some "introduction", some 1⟩, 1/2, none⟩).score :=
  (C7_section_boost_rerank.2 "results"
    ⟨"tt", ⟨some "a.pdf", some "a.pdf", some "results", some 1⟩, 1/2, none⟩
    ⟨"zzz", ⟨some "b.pdf", some "b.pdf", some "introduction", some 1⟩, 1/2, none⟩
    (1/2) rfl rfl (by norm_num) (by norm_num) (by decide) (by decide)).2

/-- Witness for C8 at a concrete chunk list. -/
theorem C8_witness :
    EmbeddingService.generate_answer none "gibberish"
        [{ text := "t", metadata := ⟨some "a.pdf", some "a.pdf", some "Results", some 2⟩,
           score := 8/10 }] =
      { answer := some "gibberish"
        citations := some []
        sources_used := some (EmbeddingService.fallbackSources
          [{ text := "t", metadata := ⟨some "a.pdf", some "a.pdf", some "Results", some 2⟩,
             score := 8/10 }])
        confidence := some (5/10)
        found_relevant_info := some false } :=
  C8_malformed_grounding_fallback "gibberish" _ (by decide)

/--
C1 (amended): the pipeline includes in a GROUND response exactly the
citations parsed from the generative backend's output, unvalidated; hence
every citation's `(paper, section, page)` triple matches a retrieved hit
whenever the backend's returned citations all do (the prompt-level
contract), but the pipeline itself does not enforce the invariant for
arbitrary backend outputs (see the counterexample).
-/
theorem C1_citations_passthrough :
    ∀ (q : String) (ig : Bool) (ds : Option String) (results : List Hit)
      (gp : Option GenJson) (gt : String),
      results ≠ [] →
      (RAGPipeline.groundAndRespond q ig ds results gp gt).citations =
        (EmbeddingService.generate_answer gp gt results).citations.getD [] ∧
      ((∀ c ∈ (EmbeddingService.generate_answer gp gt results).citations.getD [],
          citationTriple c ∈ results.map hitTriple) →
        ∀ c ∈ (RAGPipeline.groundAndRespond q ig ds results gp gt).citations,
          citationTriple c ∈ results.map hitTriple) := by
  intro q ig ds results gp gt h
  have hcit : (RAGPipeline.groundAndRespond q ig ds results gp gt).citations =
      (EmbeddingService.generate_answer gp gt results).citations.getD [] := by
    simp only [RAGPipeline.groundAndRespond, if_neg h]
  exact ⟨hcit, fun hall c hc => hall c (hcit ▸ hc)⟩

/--
C1 counterexample: a grounding call over one retrieved hit whose backend
output cites `("X", "Y", 99)` — a chunk never retrieved — produces a
QueryResponse containing exactly that out-of-set citation: the invariant
does not hold for arbitrary backend outputs.
-/
theorem C1_counterexample :
    (RAGPipeline.groundAndRespond "q" false none
        [⟨"t", ⟨some "a.pdf", some "a.pdf", some "Results", some 2⟩, 8/10, none⟩]
        (some ⟨some "ans", some [⟨"X", "Y", 99, 1⟩], some ["x.pdf"], some (9/10), some true⟩)
        "raw").citations = [⟨"X", "Y", 99, 1⟩] ∧
    citationTriple ⟨"X", "Y", 99, 1⟩ ∉
      [(⟨"t", ⟨some "a.pdf", some "a.pdf", some "Results", some 2⟩, 8/10, none⟩ : Hit)].map
        hitTriple := by
  constructor
  · with_unfolding_all decide
  · with_unfolding_all decide

/-- Witness for C1 (amended): with a backend output citing exactly the
retrieved chunk, every response citation is among the hits. -/
theorem C1_witness :
    citationTriple ⟨"a.pdf", "Results", 2, 9/10⟩ ∈
      [(⟨"t", ⟨some "a.pdf", some "a.pdf", some "Results", some 2⟩, 8/10, none⟩ : Hit)].map
        hitTriple :=
  (C1_citations_passthrough "q" false none
      [⟨"t", ⟨some "a.pdf", some "a.pdf", some "Results", some 2⟩, 8/10, none⟩]
      (some ⟨some "ans", some [⟨"a.pdf", "Results", 2, 9/10⟩], some ["a.pdf"],
        some (9/10), some true⟩)
      "raw" (by decide)).2
    (by with_unfolding_all decide)
    ⟨"a.pdf", "Results", 2, 9/10⟩ (by with_unfolding_all decide)

/--
C2 (amended): an exception from the vector index during RETRIEVE is caught
inside `search_similar` and converted into an empty hit list, so the
pipeline produces exactly the same normal QueryResponse as an index call
returning zero hits — the empty-retrieval response with
`retrievalCount = 0` and `clarificationNeeded = true` — rather than
propagating a failure.
-/
theorem C2_retrieval_error_swallowed :
    ∀ (llm : LLMQueryClassifier.LLMClassification) (q e : String)
      (gp : Option GenJson) (gt : String) (lim : ℕ),
      RAGPipeline.query llm q (Except.error e) gp gt lim =
        RAGPipeline.query llm q (Except.ok []) gp gt lim ∧
      (llm.scope ≠ LLMQueryClassifier.QueryScope.out_of_context →
        (RAGPipeline.query llm q (Except.error e) gp gt lim).retrieval_count = 0 ∧
        (RAGPipeline.query llm q (Except.error e) gp gt lim).clarification_needed
          = true) := by
  intro llm q e gp gt lim
  by_cases hsc : llm.scope = LLMQueryClassifier.QueryScope.out_of_context
  · exact ⟨by simp only [RAGPipeline.query, if_pos hsc], fun hne => absurd hsc hne⟩
  · have hgr : ∀ (ig : Bool) (ds : Option String),
        (RAGPipeline.groundAndRespond q ig ds [] gp gt).retrieval_count = 0 ∧
        (RAGPipeline.groundAndRespond q ig ds [] gp gt).clarification_needed = true :=
      fun ig ds => ⟨rfl, rfl⟩
    have key : ∀ io : Except String (List Hit), VectorStore.search_similar io = [] →
        RAGPipeline.query llm q io gp gt lim =
          RAGPipeline.groundAndRespond q llm.is_global
            (if llm.is_global then none
             else (QueryClassifier.classify q).detected_section) [] gp gt := by
      intro io hio
      simp only [RAGPipeline.query, if_neg hsc]
      by_cases hg : llm.is_global
      · simp [hg, hio]
      · simp only [Bool.not_eq_true] at hg
        cases hds : (QueryClassifier.classify q).detected_section with
        | none => simp [hg, hds, hio]
        | some s =>
          have hrs : SectionMatcher.retrieve_section io s lim = [] := by
            unfold SectionMatcher.retrieve_section
            rw [hio]
            show (SectionMatcher.filter_by_section [] s).take lim = []
            have hfe : SectionMatcher.filter_by_section [] s = [] := rfl
            rw [hfe, List.take_nil]
          simp [hg, hds, hrs]
    have hE : VectorStore.search_similar (Except.error e : Except String (List Hit))
        = [] := rfl
    have hO : VectorStore.search_similar (Except.ok ([] : List Hit)) = [] := rfl
    refine ⟨?_, fun _ => ?_⟩
    · rw [key _ hE, key _ hO]
    · rw [key _ hE]
      exact hgr _ _

/--
C2 counterexample: with the vector index raising during RETRIEVE, a LOCAL
query with no detected section yields the normal empty-retrieval
QueryResponse (with clarification prompt) — the exception is swallowed, not
propagated as a pipeline failure.
-/
theorem C2_counterexample :
    RAGPipeline.query ⟨LLMQueryClassifier.QueryScope.localScope, none, "r", 7/10⟩
        "???" (Except.error "qdrant connection refused") none "" 10 =
      { answer := RAGPipeline.clarificationPromptText
        citations := []
        sources_used := []
        confidence := 0
        context_score := 0
        context_level := "very_low"
        query_type := "local"
        detected_section := none
        is_out_of_context := false
        clarification_needed := true
        clarification_prompt := some RAGPipeline.clarificationPromptText
        warning_message := some "No relevant information found in papers."
        retrieval_count := 0 } := by
  with_unfolding_all decide

/-- Witness for C2 (amended) at a concrete LOCAL classification. -/
theorem C2_witness :
    (RAGPipeline.query ⟨LLMQueryClassifier.QueryScope.localScope, none, "r", 7/10⟩
        "???" (Except.error "boom") none "" 10).retrieval_count = 0 :=
  ((C2_retrieval_error_swallowed
      ⟨LLMQueryClassifier.QueryScope.localScope, none, "r", 7/10⟩
      "???" "boom" none "" 10).2 (by decide)).1

/--
C3 (amended): for a query with a non-empty hit list, when the computed
context score is below 0.3 (the low-confidence gate the source applies
first) and at least 2 of {contextScore < 0.3, retrievalCount < 3,
queryLength < 60} hold, the response has `clarificationNeeded = true` with
the clarification prompt attached, and the pipeline still proceeds to
grounding (answer taken from the generative backend, full retrieval count);
without the `contextScore < 0.3` gate the conclusion fails (see the
counterexample).
-/
theorem C3_clarification_gate :
    ∀ (q : String) (ig : Bool) (ds : Option String) (results : List Hit)
      (gp : Option GenJson) (gt : String),
      results ≠ [] →
      (RAGPipeline.pipelineContextScore results).1 <
        ContextScoreTracker.LOW_CONFIDENCE_THRESHOLD →
      ContextScoreTracker.should_ask_for_clarification
        (RAGPipeline.pipelineContextScore results).1 q.length results.length = true →
      (RAGPipeline.groundAndRespond q ig ds results gp gt).clarification_needed
        = true ∧
      (RAGPipeline.groundAndRespond q ig ds results gp gt).clarification_prompt =
        some RAGPipeline.clarificationPromptText ∧
      (RAGPipeline.groundAndRespond q ig ds results gp gt).answer =
        (EmbeddingService.generate_answer gp gt results).answer.getD "" ∧
      (RAGPipeline.groundAndRespond q ig ds results gp gt).retrieval_count =
        results.length := by
  intro q ig ds results gp gt hne hlow hask
  have hlowb : ContextScoreTracker.is_low_confidence
      (RAGPipeline.pipelineContextScore results).1 = true := by
    simp only [ContextScoreTracker.is_low_confidence]
    exact decide_eq_true hlow
  have hcl : (ContextScoreTracker.is_low_confidence
        (RAGPipeline.pipelineContextScore results).1
      && ContextScoreTracker.should_ask_for_clarification
        (RAGPipeline.pipelineContextScore results).1 q.length results.length)
      = true := by
    rw [hlowb, hask]
    rfl
  refine ⟨?_, ?_, ?_, ?_⟩ <;>
    simp only [RAGPipeline.groundAndRespond, if_neg hne, hcl, if_true]

/--
C3 counterexample: one hit with score 0.6 from one paper gives context
score 27/50 ≥ 0.3; with one retrieved chunk and a 7-character query, 2 of
the 3 clarification conditions hold, yet the response has
`clarificationNeeded = false`, because the source checks the clarification
conditions only under its `contextScore < 0.3` low-confidence gate.
-/
theorem C3_counterexample :
    ContextScoreTracker.should_ask_for_clarification
        (RAGPipeline.pipelineContextScore
          [⟨"m", ⟨some "a.pdf", some "a.pdf", some "Methodology", some 2⟩, 6/10, none⟩]).1
        ("method?".length) 1 = true ∧
    ¬ (RAGPipeline.pipelineContextScore
        [⟨"m", ⟨some "a.pdf", some "a.pdf", some "Methodology", some 2⟩, 6/10, none⟩]).1 <
        ContextScoreTracker.LOW_CONFIDENCE_THRESHOLD ∧
    (RAGPipeline.groundAndRespond "method?" false (some "methodology")
        [⟨"m", ⟨some "a.pdf", some "a.pdf", some "Methodology", some 2⟩, 6/10, none⟩]
        (some ⟨some "ans", some [], some ["a.pdf"], some (9/10), some true⟩)
        "raw").clarification_needed = false := by
  refine ⟨?_, ?_, ?_⟩ <;> with_unfolding_all decide

/-- Witness for C3 (amended): a single weak hit (score 0.1) with a short
query triggers the clarification gate. -/
theorem C3_witness :
    (RAGPipeline.groundAndRespond "method?" false none
        [⟨"m", ⟨some "a.pdf", some "a.pdf", some "Methodology", some 2⟩, 1/10, none⟩]
        (some ⟨some "ans", some [], some ["a.pdf"], some (9/10), some true⟩)
        "raw").clarification_needed = true :=
  (C3_clarification_gate "method?" false none
      [⟨"m", ⟨some "a.pdf", some "a.pdf", some "Methodology", some 2⟩, 1/10, none⟩]
      (some ⟨some "ans", some [], some ["a.pdf"], some (9/10), some true⟩)
      "raw" (by decide) (by with_unfolding_all decide)
      (by with_unfolding_all decide)).1

end RAG
